import Mathlib

/-!
Verification of the order-placement transactor of the storefront
(`POST /api/orders/webhook`, source `src/unnamed/part_004`, lines 452-838).

The handler is embedded shallowly: the MongoDB session transaction becomes a
pure function from a database state to a database state paired with a result;
the abort-on-`STOCK_ERROR` control flow (a thrown JSON-encoded error caught
outside `withTransaction`) becomes returning the unchanged input state with a
`stockError` result.  Machine numbers are modelled with `Int` (quantities,
stock, sold: the source applies `parseInt` with no sign check) and `ℚ`
(prices: the source applies `parseFloat` and compares with tolerance `0.01`).
JavaScript string falsiness (`!s` true for `undefined` and `""`) is modelled
on `Option String`.
-/

namespace OrderWebhook

/-- A catalog product as selected by the handler:
`Product.findById(..).select("name stock price category isActive")` with the
category name populated.  `categoryName = none` models a product whose
`category` reference is absent or unpopulated. -/
structure Product where
  id : Nat
  name : String
  stock : Int
  sold : Int
  price : ℚ
  isActive : Bool
  categoryName : Option String
deriving Repr, DecidableEq

/-- A client-supplied order line (`orderData.orderItems[i]`), after the
handler's `parseInt(item.quantity, 10)` and `parseFloat(item.price)`.
`category` starts absent and is attached by the handler during processing. -/
structure OrderItem where
  product : Nat
  quantity : Int
  cartId : Option Nat
  price : ℚ
  category : Option String := none
deriving Repr, DecidableEq

/-- Client-supplied `orderData.paymentInfo`.  `isCashPayment` models the
`isCashPayment === true` test (every non-`true` JavaScript value is `false`). -/
structure PaymentInfo where
  typePayment : Option String
  paymentAccountNumber : Option String
  paymentAccountName : Option String
  isCashPayment : Bool := false
deriving Repr, DecidableEq

/-- The parsed request body `orderData`. -/
structure OrderData where
  orderItems : List OrderItem
  paymentInfo : Option PaymentInfo
  totalAmount : ℚ
deriving Repr, DecidableEq

/-- The authenticated actor returned by `isAuthenticatedUser()`. -/
structure User where
  id : Nat
  email : String
  isActive : Bool
deriving Repr, DecidableEq

/-- A persisted `Order` document.

Modelled from the spec: the `Order` schema (`@/backend/models/order`) is not
under `src/`; per the spec's data model an Order is
`{id, orderNumber (unique), userId, items, paymentInfo, paymentStatus,
totalAmount, createdAt}`, with `orderNumber` unique and `createdAt` the
creation timestamp.  The handler itself supplies `items`, `paymentInfo`,
`totalAmount` and `user` (it persists `orderData` directly); `orderNumber`,
`paymentStatus` and `createdAt` are filled in at creation. -/
structure OrderDoc where
  user : Nat
  items : List OrderItem
  paymentInfo : PaymentInfo
  totalAmount : ℚ
  orderNumber : Nat
  paymentStatus : String
  createdAt : Nat
deriving Repr, DecidableEq

/-- A persisted `Cart` document (only the fields the handler touches:
`_id` and `user`). -/
structure CartEntry where
  id : Nat
  user : Nat
  productId : Nat
  quantity : Int
deriving Repr, DecidableEq

/-- The document store.  `time` is a monotonic clock used for `createdAt`
and `nextOrderNumber` the unique-order-number source (modelled from the
spec: `orderNumber (unique)`, `createdAt` timestamp). -/
structure DB where
  products : List Product
  orders : List OrderDoc
  carts : List CartEntry
  time : Nat
  nextOrderNumber : Nat
deriving Repr, DecidableEq

/-- The diagnostic reason attached to an unavailable line item. -/
inductive Reason where
  | not_found
  | product_inactive
  | insufficient_stock
  | price_mismatch
deriving Repr, DecidableEq

/-- One entry of the `unavailableProducts` list: `id` and `name` always,
`stock`/`requested` only for `insufficient_stock`, `expected`/`provided`
only for `price_mismatch`, exactly as the handler pushes them. -/
structure Unavailable where
  id : Nat
  name : String
  reason : Reason
  stock : Option Int := none
  requested : Option Int := none
  expected : Option ℚ := none
  provided : Option ℚ := none
deriving Repr, DecidableEq

/-- One entry of the handler's `processedItems` accumulator (built from the
store's authoritative product data; the source computes it and never uses
it afterwards). -/
structure ProcessedItem where
  productId : Nat
  productName : String
  quantity : Int
  price : ℚ
deriving Repr, DecidableEq

/-- One element of `productOrders`: the handler's projection of a line item. -/
structure ProductOrder where
  productId : Nat
  quantity : Int
  cartId : Option Nat
  price : ℚ
deriving Repr, DecidableEq

/-- The HTTP outcome of the handler, as a tagged result. -/
inductive OrderResult where
  /-- 201: `{orderNumber, paymentStatus, isCashPayment}`. -/
  | success (orderNumber : Nat) (paymentStatus : String) (isCashPayment : Bool)
  /-- 400 family, tagged by code or message. -/
  | validationError (code : String)
  /-- 409 `STOCK_ERROR` with the itemized unavailable products. -/
  | stockError (unavailableProducts : List Unavailable)
  /-- 404 `USER_NOT_FOUND` / 403 `ACCOUNT_SUSPENDED`. -/
  | authError (code : String)
deriving Repr, DecidableEq

/-- JavaScript falsiness of an optional string: `undefined` and `""` are
falsy. -/
def strFalsy : Option String → Bool
  | none => true
  | some s => s.isEmpty

/-- The test `const isCash = typePayment === "CASH" || isCashPayment === true`. -/
def isCashOf (pi : PaymentInfo) : Bool :=
  pi.typePayment == some "CASH" || pi.isCashPayment

/-- CASH normalization: overwrite the account fields with the sentinels. -/
def normalizePayment (pi : PaymentInfo) : PaymentInfo :=
  if isCashOf pi then
    { pi with paymentAccountNumber := some "CASH",
              paymentAccountName := some "Paiement en espèces",
              isCashPayment := true }
  else pi

/-- The projection `orderData.orderItems.map(item => ({productId, quantity, cartId, price}))`. -/
def mkProductOrders (items : List OrderItem) : List ProductOrder :=
  items.map fun it => ⟨it.product, it.quantity, it.cartId, it.price⟩

/-- Update the first element satisfying `pred` (MongoDB updates the single
document matching an `_id` filter). -/
def updateFirst {α : Type} (l : List α) (pred : α → Bool) (f : α → α) : List α :=
  match l with
  | [] => []
  | x :: xs => if pred x then f x :: xs else x :: updateFirst xs pred f

/-- The update `Product.findByIdAndUpdate(id, { $inc: { stock: -q, sold: q } })`. -/
def applyInc (ps : List Product) (pid : Nat) (q : Int) : List Product :=
  updateFirst ps (fun p => p.id == pid)
    (fun p => { p with stock := p.stock - q, sold := p.sold + q })

/-- Attach the populated category name to the first order item referencing
`pid` (`orderData.orderItems.find(oi => oi.product === product._id)` then
`orderItem.category = product.category.categoryName`, guarded by
`product.category` being present). -/
def attachCategory (items : List OrderItem) (pid : Nat) :
    Option String → List OrderItem
  | none => items
  | some c =>
      updateFirst items (fun it => it.product == pid)
        (fun it => { it with category := some c })

/-- The three guarded checks on a found product, in source order:
`isActive`, then stock, then the `0.01` price tolerance.  Returns the
`unavailableProducts` entry the handler would push, or `none` if the item
passes. -/
def checkItem (p : Product) (item : ProductOrder) : Option Unavailable :=
  if p.isActive = false then
    some { id := p.id, name := p.name, reason := .product_inactive }
  else if p.stock < item.quantity then
    some { id := p.id, name := p.name, reason := .insufficient_stock,
           stock := some p.stock, requested := some item.quantity }
  else if (0.01 : ℚ) < |p.price - item.price| then
    some { id := p.id, name := p.name, reason := .price_mismatch,
           expected := some p.price, provided := some item.price }
  else
    none

/-- The mutable state of the handler's `for (const item of productOrders)`
loop: the session's view of the products, the two accumulators, and the
`orderData.orderItems` array (mutated in place by the category attach). -/
structure LoopState where
  products : List Product
  unavailable : List Unavailable
  processed : List ProcessedItem
  orderItems : List OrderItem
deriving Repr, DecidableEq

/-- One iteration of the stock-verification loop. -/
def processItem (st : LoopState) (item : ProductOrder) : LoopState :=
  match st.products.find? (fun p => p.id == item.productId) with
  | none =>
      { st with unavailable := st.unavailable ++
          [{ id := item.productId, name := "Product not found",
             reason := .not_found }] }
  | some product =>
      match checkItem product item with
      | some u => { st with unavailable := st.unavailable ++ [u] }
      | none =>
          { products := applyInc st.products product.id item.quantity,
            unavailable := st.unavailable,
            processed := st.processed ++
              [{ productId := product.id, productName := product.name,
                 quantity := item.quantity, price := product.price }],
            orderItems := attachCategory st.orderItems product.id
              product.categoryName }

/-- The whole verification loop, run against the session's product state. -/
def runItems (products : List Product) (items : List OrderItem) : LoopState :=
  (mkProductOrders items).foldl processItem
    { products := products, unavailable := [], processed := [],
      orderItems := items }

/-- The cart ids referenced by the request
(`productOrders.filter(item => item.cartId).map(item => item.cartId)`). -/
def reqCartIds (items : List OrderItem) : List Nat :=
  (mkProductOrders items).filterMap (fun it => it.cartId)

/-- Initial `paymentStatus` of a created order.

Modelled from the spec: the `Order` schema default is not under `src/`; the
handler's doc comment fixes `"pending_cash"` as the initial status of a CASH
order, and the route runs "après paiement confirmé" otherwise. -/
def initialPaymentStatus (isCash : Bool) : String :=
  if isCash then "pending_cash" else "paid"

/-- Keep the later-created of an accumulator and a candidate order
(the first seen wins ties), the step of a `sort({createdAt: -1})` scan. -/
def pickLater (acc : Option OrderDoc) (o : OrderDoc) : Option OrderDoc :=
  match acc with
  | none => some o
  | some b => if b.createdAt < o.createdAt then some o else acc

/-- The lookup `Order.findOne({user: uid}).sort({createdAt: -1})`: among the user's
orders, the one with the greatest `createdAt` (first listed wins ties). -/
def findLatestOrder (orders : List OrderDoc) (uid : Nat) : Option OrderDoc :=
  (orders.filter (fun o => o.user == uid)).foldl pickLater none

/-- The deletion `Cart.deleteMany({_id: {$in: cartIds}, user: user.id})`, skipped when
`cartIds` is empty. -/
def deleteCarts (carts : List CartEntry) (cartIds : List Nat) (uid : Nat) :
    List CartEntry :=
  if cartIds.isEmpty then carts
  else carts.filter (fun c => !(cartIds.contains c.id && c.user == uid))

/-- The Order document the commit path creates: the client's items with
`cartId` stripped (`delete item.cartId`) and the category attach applied,
the normalized payment info, the client's `totalAmount`, owned by the
actor (`orderData.user = user.id`), stamped at creation. -/
def newOrderDoc (db : DB) (user : User) (orderData : OrderData)
    (pi : PaymentInfo) (isCash : Bool) (st : LoopState) : OrderDoc :=
  { user := user.id,
    items := st.orderItems.map fun it => { it with cartId := none },
    paymentInfo := pi,
    totalAmount := orderData.totalAmount,
    orderNumber := db.nextOrderNumber,
    paymentStatus := initialPaymentStatus isCash,
    createdAt := db.time }

/-- Commit path of the transaction: strip `cartId` from the items, set
`user`, create the Order document, delete the actor's referenced cart
entries, then answer with the user's latest order's number and status. -/
def commitOrder (db : DB) (user : User) (orderData : OrderData)
    (pi : PaymentInfo) (isCash : Bool) (st : LoopState) : DB × OrderResult :=
  let newOrder := newOrderDoc db user orderData pi isCash st
  let db' : DB :=
    { products := st.products,
      orders := db.orders ++ [newOrder],
      carts := deleteCarts db.carts (reqCartIds orderData.orderItems) user.id,
      time := db.time + 1,
      nextOrderNumber := db.nextOrderNumber + 1 }
  let confirmed := (findLatestOrder db'.orders user.id).getD newOrder
  (db', .success confirmed.orderNumber confirmed.paymentStatus isCash)

/-- The `session.withTransaction` body together with its abort semantics:
when any item is unavailable the thrown `STOCK_ERROR` rolls the session
back (the store is returned unchanged) and the handler answers 409 with
the itemized list. -/
def processOrder (db : DB) (user : User) (orderData : OrderData)
    (pi : PaymentInfo) (isCash : Bool) : DB × OrderResult :=
  let st := runItems db.products orderData.orderItems
  if st.unavailable.isEmpty then
    commitOrder db user orderData pi isCash st
  else
    (db, .stockError st.unavailable)

/-- The handler `POST /api/orders/webhook` after authentication succeeded:
the active-account gate, the request-shape validations (each answering 400
before the session is started), CASH normalization, then the transaction. -/
def POST (db : DB) (user : User) (orderData : OrderData) : DB × OrderResult :=
  if user.isActive = false then
    (db, .authError "ACCOUNT_SUSPENDED")
  else if orderData.orderItems.isEmpty then
    (db, .validationError "EMPTY_ORDER")
  else
    match orderData.paymentInfo with
    | none => (db, .validationError "MISSING_PAYMENT_INFO")
    | some pi =>
        if strFalsy pi.typePayment then
          (db, .validationError "PAYMENT_TYPE_REQUIRED")
        else if !isCashOf pi &&
            (strFalsy pi.paymentAccountNumber ||
             strFalsy pi.paymentAccountName) then
          (db, .validationError "ACCOUNT_INFO_REQUIRED")
        else
          processOrder db user orderData (normalizePayment pi) (isCashOf pi)

/-- Total quantity a request asks for a given product id, over the
projected `productOrders`. -/
def totalQtyPO (pos : List ProductOrder) (pid : Nat) : Int :=
  ((pos.filter (fun it => it.productId == pid)).map ProductOrder.quantity).sum

/-- Total quantity a request asks for a given product id, over the raw
`orderItems`. -/
def totalQty (items : List OrderItem) (pid : Nat) : Int :=
  ((items.filter (fun it => it.product == pid)).map OrderItem.quantity).sum


/-- Projection of a product to the fields the `$inc` update leaves alone. -/
def Product.core (p : Product) : Nat × String × ℚ × Bool × Option String :=
  (p.id, p.name, p.price, p.isActive, p.categoryName)

/-! ### Concrete catalog, actor and requests used to witness the theorems -/

def exProduct : Product :=
  { id := 1, name := "Clavier", stock := 10, sold := 2, price := 100,
    isActive := true, categoryName := some "Accessoires" }

def exProduct2 : Product :=
  { id := 2, name := "Souris", stock := 3, sold := 0, price := 50,
    isActive := true, categoryName := none }

def exInactive : Product :=
  { id := 3, name := "Ancien", stock := 5, sold := 0, price := 20,
    isActive := false, categoryName := some "Archives" }

def exUser : User := { id := 7, email := "client@example.com", isActive := true }

def exDB : DB :=
  { products := [exProduct, exProduct2, exInactive], orders := [],
    carts := [{ id := 42, user := 7, productId := 1, quantity := 2 },
              { id := 43, user := 9, productId := 1, quantity := 1 }],
    time := 5, nextOrderNumber := 1000 }

def exCashPI : PaymentInfo :=
  { typePayment := some "CASH", paymentAccountNumber := none,
    paymentAccountName := none, isCashPayment := false }

def exWavePI : PaymentInfo :=
  { typePayment := some "WAVE", paymentAccountNumber := none,
    paymentAccountName := none, isCashPayment := true }

/-- A fully valid two-line order request. -/
def exOkOD : OrderData :=
  { orderItems :=
      [{ product := 1, quantity := 2, cartId := some 42, price := 100 },
       { product := 2, quantity := 1, cartId := none, price := 50 }],
    paymentInfo := some exCashPI, totalAmount := 250 }

/-- A request whose single line targets the inactive product. -/
def exFailOD : OrderData :=
  { orderItems := [{ product := 3, quantity := 1, cartId := none, price := 20 }],
    paymentInfo := some exCashPI, totalAmount := 20 }

/-- A request whose single line has both insufficient stock (3 < 5) and a
claimed price far from the stored one (|50 - 200| > 0.01). -/
def exC3BadOD : OrderData :=
  { orderItems := [{ product := 2, quantity := 5, cartId := none, price := 200 }],
    paymentInfo := some exCashPI, totalAmount := 1000 }

/-- A request whose first line is active with enough stock but a mismatched
price, followed by a fully valid line. -/
def exC3MixOD : OrderData :=
  { orderItems :=
      [{ product := 1, quantity := 1, cartId := none, price := 200 },
       { product := 2, quantity := 1, cartId := none, price := 50 }],
    paymentInfo := some exCashPI, totalAmount := 250 }

/-- A request whose claimed price differs from the stored 100 by exactly
0.01 (within tolerance) and whose client-chosen total is absurd. -/
def exC4OD : OrderData :=
  { orderItems := [{ product := 1, quantity := 1, cartId := some 42, price := 100.01 }],
    paymentInfo := some exCashPI, totalAmount := 999999 }

/-- An empty order request. -/
def exEmptyOD : OrderData :=
  { orderItems := [], paymentInfo := some exCashPI, totalAmount := 0 }

/-- A valid one-line request paid by a non-CASH method flagged
`isCashPayment: true`, with no account fields. -/
def exWaveOD : OrderData :=
  { orderItems := [{ product := 1, quantity := 1, cartId := none, price := 100 }],
    paymentInfo := some exWavePI, totalAmount := 100 }

/-- Loop state at the start of a transaction over a one-product catalog. -/
def exStockLoop : LoopState :=
  { products := [exProduct2], unavailable := [], processed := [],
    orderItems := [] }

/-- The spec's example item: quantity 5 against stock 3. -/
def exStockItem : ProductOrder :=
  { productId := 2, quantity := 5, cartId := none, price := 50 }

/-! ### Equation lemmas for the branch structure of the loop -/

theorem applyInc_nil (pid : Nat) (q : Int) : applyInc [] pid q = [] := rfl

theorem applyInc_cons_pos (p : Product) (ps : List Product) (pid : Nat)
    (q : Int) (h : (p.id == pid) = true) :
    applyInc (p :: ps) pid q =
      { p with stock := p.stock - q, sold := p.sold + q } :: ps := by
  unfold applyInc
  simp only [updateFirst]
  rw [if_pos h]

theorem applyInc_cons_neg (p : Product) (ps : List Product) (pid : Nat)
    (q : Int) (h : (p.id == pid) = false) :
    applyInc (p :: ps) pid q = p :: applyInc ps pid q := by
  unfold applyInc
  simp only [updateFirst]
  rw [if_neg (by simp [h])]

theorem processItem_not_found (st : LoopState) (it : ProductOrder)
    (hf : st.products.find? (fun p => p.id == it.productId) = none) :
    processItem st it = { st with unavailable := st.unavailable ++
      [{ id := it.productId, name := "Product not found",
         reason := .not_found }] } := by
  unfold processItem
  simp only [hf]

theorem processItem_check_fail (st : LoopState) (it : ProductOrder)
    (p : Product) (u : Unavailable)
    (hf : st.products.find? (fun q => q.id == it.productId) = some p)
    (hc : checkItem p it = some u) :
    processItem st it = { st with unavailable := st.unavailable ++ [u] } := by
  unfold processItem
  simp only [hf, hc]

theorem processItem_pass (st : LoopState) (it : ProductOrder) (p : Product)
    (hf : st.products.find? (fun q => q.id == it.productId) = some p)
    (hc : checkItem p it = none) :
    processItem st it =
      { products := applyInc st.products p.id it.quantity,
        unavailable := st.unavailable,
        processed := st.processed ++
          [{ productId := p.id, productName := p.name,
             quantity := it.quantity, price := p.price }],
        orderItems := attachCategory st.orderItems p.id p.categoryName } := by
  unfold processItem
  simp only [hf, hc]

/-- A passing item keeps every check false: it is active, has enough stock
and its claimed price is within the tolerance. -/
theorem checkItem_none (p : Product) (it : ProductOrder)
    (hc : checkItem p it = none) :
    p.isActive = true ∧ ¬(p.stock < it.quantity) ∧
      ¬((0.01 : ℚ) < |p.price - it.price|) := by
  revert hc
  unfold checkItem
  by_cases ha : p.isActive = false
  · intro hc; simp [ha] at hc
  · by_cases hs : p.stock < it.quantity
    · intro hc; simp [ha, hs] at hc
    · by_cases hpr : (0.01 : ℚ) < |p.price - it.price|
      · intro hc; simp [ha, hs, hpr] at hc
      · intro _
        refine ⟨?_, hs, hpr⟩
        simpa using ha

/-! ### Lemmas about `updateFirst` and the `$inc` update -/

theorem updateFirst_map_of_preserve {α β : Type} (l : List α) (pred : α → Bool)
    (f : α → α) (g : α → β) (h : ∀ x, g (f x) = g x) :
    (updateFirst l pred f).map g = l.map g := by
  induction l with
  | nil => rfl
  | cons x xs ih =>
      unfold updateFirst
      by_cases hx : pred x = true
      · simp [hx, h]
      · simp only [Bool.not_eq_true] at hx
        simp [hx, ih]

/-- The `$inc` update never changes the list of product ids. -/
theorem applyInc_map_id (ps : List Product) (pid : Nat) (q : Int) :
    (applyInc ps pid q).map Product.id = ps.map Product.id :=
  updateFirst_map_of_preserve _ _ _ _ (fun _ => rfl)

/-- The `$inc` update changes neither which product an `_id` lookup finds
nor its id, name, price, activity or category. -/
theorem find?_applyInc (ps : List Product) (pid : Nat) (q : Int) (x : Nat) :
    ((applyInc ps pid q).find? (fun p => p.id == x)).map Product.core =
      (ps.find? (fun p => p.id == x)).map Product.core := by
  induction ps with
  | nil => rfl
  | cons p ps ih =>
      by_cases hpid : (p.id == pid) = true
      · rw [applyInc_cons_pos p ps pid q hpid]
        by_cases hx : (p.id == x) = true
        · simp [List.find?_cons, hx, Product.core]
        · simp only [Bool.not_eq_true] at hx
          simp [List.find?_cons, hx]
      · simp only [Bool.not_eq_true] at hpid
        rw [applyInc_cons_neg p ps pid q hpid]
        by_cases hx : (p.id == x) = true
        · simp [List.find?_cons, hx]
        · simp only [Bool.not_eq_true] at hx
          simp only [List.find?_cons, hx]
          exact ih

/-- With pairwise-distinct product ids, the single-document `$inc` update is
the pointwise map decrementing the matching product. -/
theorem applyInc_eq_map (ps : List Product) (pid : Nat) (q : Int)
    (hnd : (ps.map Product.id).Nodup) :
    applyInc ps pid q = ps.map (fun p =>
      if p.id = pid then { p with stock := p.stock - q, sold := p.sold + q }
      else p) := by
  induction ps with
  | nil => rfl
  | cons p ps ih =>
      rw [List.map_cons, List.nodup_cons] at hnd
      obtain ⟨hp, hnd⟩ := hnd
      by_cases hid : p.id = pid
      · rw [applyInc_cons_pos p ps pid q (by simpa using hid), List.map_cons,
          if_pos hid, List.cons.injEq]
        refine ⟨rfl, ?_⟩
        conv_lhs => rw [← List.map_id ps]
        apply List.map_congr_left
        intro x hx
        have hxe : ¬(x.id = pid) := by
          intro hxe
          exact hp (by rw [hid, ← hxe]; exact List.mem_map_of_mem _ hx)
        rw [if_neg hxe]
        rfl
      · rw [applyInc_cons_neg p ps pid q (by simpa using hid), List.map_cons,
          if_neg hid, List.cons.injEq]
        exact ⟨rfl, ih hnd⟩

/-- Folding the per-item `$inc` updates over a request equals decrementing
every product by the total quantity the request asks of it (ids distinct). -/
theorem foldl_applyInc_eq_map (pos : List ProductOrder) (ps : List Product)
    (hnd : (ps.map Product.id).Nodup) :
    pos.foldl (fun acc it => applyInc acc it.productId it.quantity) ps =
      ps.map (fun p => { p with stock := p.stock - totalQtyPO pos p.id,
                                sold := p.sold + totalQtyPO pos p.id }) := by
  induction pos generalizing ps with
  | nil =>
      rw [List.foldl_nil]
      conv_lhs => rw [← List.map_id ps]
      apply List.map_congr_left
      intro x _
      show x = _
      cases x
      simp [totalQtyPO]
  | cons it pos ih =>
      rw [List.foldl_cons]
      have hnd' : ((applyInc ps it.productId it.quantity).map Product.id).Nodup := by
        rw [applyInc_map_id]
        exact hnd
      rw [ih _ hnd', applyInc_eq_map ps _ _ hnd, List.map_map]
      apply List.map_congr_left
      intro p _
      by_cases hid : p.id = it.productId
      · have hq : totalQtyPO (it :: pos) p.id =
            it.quantity + totalQtyPO pos p.id := by
          unfold totalQtyPO
          rw [List.filter_cons, if_pos (by simpa using hid.symm)]
          simp
        cases p
        simp only [Function.comp_apply, if_pos hid, hq]
        simp only [Product.mk.injEq, true_and, and_true]
        omega
      · have hq : totalQtyPO (it :: pos) p.id = totalQtyPO pos p.id := by
          unfold totalQtyPO
          rw [List.filter_cons, if_neg (by simpa using fun h => hid h.symm)]
        cases p
        simp only [Function.comp_apply, if_neg hid, hq]

/-- The two total-quantity readings agree. -/
theorem totalQtyPO_mkProductOrders (items : List OrderItem) (pid : Nat) :
    totalQtyPO (mkProductOrders items) pid = totalQty items pid := by
  induction items with
  | nil => rfl
  | cons it items ih =>
      unfold mkProductOrders totalQtyPO totalQty at ih ⊢
      rw [List.map_cons, List.filter_cons, List.filter_cons]
      by_cases h : (it.product == pid) = true
      · simp only [h, if_true, List.map_cons, List.sum_cons]
        rw [ih]
      · simp only [Bool.not_eq_true] at h
        simp only [h, Bool.false_eq_true, if_false]
        exact ih

/-! ### Invariants of the verification loop -/

/-- Each loop iteration appends zero or one `unavailableProducts` entries. -/
theorem processItem_unavailable_append (st : LoopState) (it : ProductOrder) :
    ∃ l, (processItem st it).unavailable = st.unavailable ++ l := by
  cases hf : st.products.find? (fun q => q.id == it.productId) with
  | none => exact ⟨_, by rw [processItem_not_found st it hf]⟩
  | some p =>
      cases hc : checkItem p it with
      | none =>
          refine ⟨[], ?_⟩
          rw [processItem_pass st it p hf hc, List.append_nil]
      | some u => exact ⟨[u], by rw [processItem_check_fail st it p u hf hc]⟩

/-- The whole loop only ever appends to the `unavailableProducts` list. -/
theorem foldl_unavailable_append (pos : List ProductOrder) (st : LoopState) :
    ∃ l, (pos.foldl processItem st).unavailable = st.unavailable ++ l := by
  induction pos generalizing st with
  | nil => exact ⟨[], (List.append_nil _).symm⟩
  | cons it pos ih =>
      obtain ⟨l₂, h₂⟩ := ih (processItem st it)
      obtain ⟨l₁, h₁⟩ := processItem_unavailable_append st it
      exact ⟨l₁ ++ l₂, by rw [List.foldl_cons, h₂, h₁, List.append_assoc]⟩

/-- An iteration that adds no `unavailableProducts` entry found its product,
passed all checks, and performed exactly the `$inc` update, the
`processedItems` push and the category attach. -/
theorem processItem_success (st : LoopState) (it : ProductOrder)
    (h : (processItem st it).unavailable = st.unavailable) :
    ∃ p, st.products.find? (fun q => q.id == it.productId) = some p ∧
      checkItem p it = none ∧
      processItem st it =
        { products := applyInc st.products p.id it.quantity,
          unavailable := st.unavailable,
          processed := st.processed ++
            [{ productId := p.id, productName := p.name,
               quantity := it.quantity, price := p.price }],
          orderItems := attachCategory st.orderItems p.id p.categoryName } := by
  cases hf : st.products.find? (fun q => q.id == it.productId) with
  | none =>
      rw [processItem_not_found st it hf] at h
      have := congrArg List.length h
      simp at this
  | some p =>
      cases hc : checkItem p it with
      | some u =>
          rw [processItem_check_fail st it p u hf hc] at h
          have := congrArg List.length h
          simp at this
      | none => exact ⟨p, rfl, hc, processItem_pass st it p hf hc⟩

/-- When the loop ends with no unavailable product, every iteration
succeeded: the entry list was empty throughout and the final products are
the iterated `$inc` updates. -/
theorem foldl_success (pos : List ProductOrder) (st : LoopState)
    (h : (pos.foldl processItem st).unavailable = []) :
    st.unavailable = [] ∧
      (pos.foldl processItem st).products =
        pos.foldl (fun acc it => applyInc acc it.productId it.quantity)
          st.products := by
  induction pos generalizing st with
  | nil => exact ⟨h, rfl⟩
  | cons it pos ih =>
      rw [List.foldl_cons] at h
      obtain ⟨h1, h2⟩ := ih _ h
      have hsu : st.unavailable = [] := by
        obtain ⟨l, hl⟩ := processItem_unavailable_append st it
        rw [hl] at h1
        exact (List.append_eq_nil.mp h1).1
      have hps : (processItem st it).unavailable = st.unavailable := by
        rw [h1, hsu]
      obtain ⟨p, hf, _, heq⟩ := processItem_success st it hps
      have hid : p.id = it.productId := by
        simpa using List.find?_some hf
      refine ⟨hsu, ?_⟩
      rw [List.foldl_cons, List.foldl_cons, h2, heq]
      simp only [hid]

/-- When the loop ends with no unavailable product, every requested item's
product was found, is active, and its store price is within the `0.01`
tolerance of the claimed price (prices and activity are stable through the
loop's `$inc` updates). -/
theorem foldl_success_each_item (pos : List ProductOrder) (st : LoopState)
    (h : (pos.foldl processItem st).unavailable = []) :
    ∀ it ∈ pos, ∃ p,
      st.products.find? (fun q => q.id == it.productId) = some p ∧
      p.isActive = true ∧ ¬((0.01 : ℚ) < |p.price - it.price|) := by
  induction pos generalizing st with
  | nil => intro it hit; exact absurd hit (by simp)
  | cons it0 pos ih =>
      rw [List.foldl_cons] at h
      have hstep : (processItem st it0).unavailable = [] :=
        (foldl_success pos _ h).1
      have hsu : st.unavailable = [] := by
        obtain ⟨l, hl⟩ := processItem_unavailable_append st it0
        rw [hl] at hstep
        exact (List.append_eq_nil.mp hstep).1
      have hps : (processItem st it0).unavailable = st.unavailable := by
        rw [hstep, hsu]
      obtain ⟨p, hf, hc, heq⟩ := processItem_success st it0 hps
      intro it hit
      rcases List.mem_cons.mp hit with rfl | hmem
      · obtain ⟨hact, _, hpr⟩ := checkItem_none p it hc
        exact ⟨p, hf, hact, hpr⟩
      · obtain ⟨p', hf', hact', hpr'⟩ := ih (processItem st it0) h it hmem
        rw [heq] at hf'
        have hcore := find?_applyInc st.products p.id it0.quantity it.productId
        rw [hf'] at hcore
        cases hm : st.products.find? (fun q => q.id == it.productId) with
        | none =>
            rw [hm] at hcore
            simp at hcore
        | some p'' =>
            rw [hm] at hcore
            simp only [Option.map_some', Option.some.injEq] at hcore
            have hact'' : p''.isActive = p'.isActive := by
              have := congrArg (fun c => c.2.2.2.1) hcore
              simpa [Product.core] using this.symm
            have hpr'' : p''.price = p'.price := by
              have := congrArg (fun c => c.2.2.1) hcore
              simpa [Product.core] using this.symm
            exact ⟨p'', rfl, by rw [hact'']; exact hact',
              by rw [hpr'']; exact hpr'⟩

/-! ### Reductions of the handler -/

/-- A request that passes every shape validation reaches the transaction
with the normalized payment info and the computed cash flag. -/
theorem POST_valid (db : DB) (user : User) (od : OrderData) (pi : PaymentInfo)
    (hact : user.isActive = true)
    (hne : od.orderItems.isEmpty = false)
    (hpi : od.paymentInfo = some pi)
    (htp : strFalsy pi.typePayment = false)
    (hacct : isCashOf pi = true ∨
      (strFalsy pi.paymentAccountNumber = false ∧
       strFalsy pi.paymentAccountName = false)) :
    POST db user od = processOrder db user od (normalizePayment pi)
      (isCashOf pi) := by
  unfold POST
  rw [hact, hpi]
  simp only [Bool.true_eq_false, if_false, hne, htp]
  rcases hacct with h | ⟨h1, h2⟩
  · simp [h]
  · simp [h1, h2]

/-- When some item is unavailable, the transaction aborts: the store is
unchanged and the caller receives the itemized 409. -/
theorem processOrder_fail (db : DB) (user : User) (od : OrderData)
    (pi : PaymentInfo) (c : Bool)
    (h : (runItems db.products od.orderItems).unavailable ≠ []) :
    processOrder db user od pi c =
      (db, .stockError (runItems db.products od.orderItems).unavailable) := by
  unfold processOrder
  rw [if_neg (by simpa using h)]

/-- When no item is unavailable, the transaction commits. -/
theorem processOrder_ok (db : DB) (user : User) (od : OrderData)
    (pi : PaymentInfo) (c : Bool)
    (h : (runItems db.products od.orderItems).unavailable = []) :
    processOrder db user od pi c =
      commitOrder db user od pi c (runItems db.products od.orderItems) := by
  unfold processOrder
  rw [if_pos (by simpa using h)]

/-- A `sort({createdAt: -1})` scan returns its accumulator or some element
of the scanned list. -/
theorem foldl_pickLater (l : List OrderDoc) (acc : Option OrderDoc) :
    l.foldl pickLater acc = acc ∨ ∃ b ∈ l, l.foldl pickLater acc = some b := by
  induction l generalizing acc with
  | nil => exact Or.inl rfl
  | cons o l ih =>
      rw [List.foldl_cons]
      rcases ih (pickLater acc o) with h | ⟨b, hb, h⟩
      · cases acc with
        | none => exact Or.inr ⟨o, List.mem_cons_self o l, by rw [h]; rfl⟩
        | some b =>
            rw [h]
            simp only [pickLater]
            by_cases hlt : b.createdAt < o.createdAt
            · exact Or.inr ⟨o, List.mem_cons_self o l, by rw [if_pos hlt]⟩
            · exact Or.inl (by rw [if_neg hlt])
      · exact Or.inr ⟨b, List.mem_cons_of_mem o hb, h⟩

/-- Appending an order strictly newer than every stored one makes it the
user's latest order. -/
theorem findLatestOrder_append (l : List OrderDoc) (o : OrderDoc) (uid : Nat)
    (hu : o.user = uid) (ht : ∀ b ∈ l, b.createdAt < o.createdAt) :
    findLatestOrder (l ++ [o]) uid = some o := by
  unfold findLatestOrder
  rw [List.filter_append, List.foldl_append]
  have hsingle : (([o] : List OrderDoc).filter (fun x => x.user == uid)) = [o] := by
    simp [hu]
  rw [hsingle]
  rcases foldl_pickLater (l.filter (fun x => x.user == uid)) none with h | ⟨b, hb, h⟩
  · rw [h]
    rfl
  · rw [h]
    have hbl : b ∈ l := (List.mem_filter.mp hb).1
    show pickLater (some b) o = some o
    simp only [pickLater]
    rw [if_pos (ht b hbl)]

/-! ### The claims -/

/-- C1: whenever at least one line item fails a check (recorded in the
loop's `unavailableProducts` list), the transaction is aborted: the whole
store (products, orders, carts) is returned unchanged — so no Order is
created, no stock or sold counter moves, no cart entry is deleted — and the
caller receives the `STOCK_ERROR` result carrying the per-item list of
unavailable products with their reasons. -/
theorem C1_failed_item_aborts_all (db : DB) (user : User) (od : OrderData)
    (pi : PaymentInfo)
    (hact : user.isActive = true)
    (hne : od.orderItems.isEmpty = false)
    (hpi : od.paymentInfo = some pi)
    (htp : strFalsy pi.typePayment = false)
    (hacct : isCashOf pi = true ∨
      (strFalsy pi.paymentAccountNumber = false ∧
       strFalsy pi.paymentAccountName = false))
    (hfail : (runItems db.products od.orderItems).unavailable ≠ []) :
    POST db user od =
      (db, .stockError (runItems db.products od.orderItems).unavailable) := by
  rw [POST_valid db user od pi hact hne hpi htp hacct,
    processOrder_fail db user od _ _ hfail]

unseal Rat.sub Rat.add Rat.mul Rat.inv Rat.ofScientific in
/-- Witness for C1: an order for the inactive product aborts with the
itemized `STOCK_ERROR` and leaves the store untouched. -/
theorem C1_failed_item_aborts_all_witness :
    exUser.isActive = true ∧
    (runItems exDB.products exFailOD.orderItems).unavailable ≠ [] ∧
    POST exDB exUser exFailOD =
      (exDB, .stockError (runItems exDB.products exFailOD.orderItems).unavailable) :=
  ⟨rfl, by decide,
   C1_failed_item_aborts_all exDB exUser exFailOD exCashPI rfl (by decide) rfl
     rfl (Or.inl rfl) (by decide)⟩

/-- C2: when every line item passes all checks, exactly one Order owned by
the actor is appended, and every product's stock decreases — and its sold
counter increases — by exactly the total quantity the request asks of it
(the requested quantity of each line referencing it). -/
theorem C2_success_creates_order_updates_stock (db : DB) (user : User)
    (od : OrderData) (pi : PaymentInfo)
    (hact : user.isActive = true)
    (hne : od.orderItems.isEmpty = false)
    (hpi : od.paymentInfo = some pi)
    (htp : strFalsy pi.typePayment = false)
    (hacct : isCashOf pi = true ∨
      (strFalsy pi.paymentAccountNumber = false ∧
       strFalsy pi.paymentAccountName = false))
    (hnd : (db.products.map Product.id).Nodup)
    (hok : (runItems db.products od.orderItems).unavailable = []) :
    ∃ o : OrderDoc,
      (POST db user od).1.orders = db.orders ++ [o] ∧ o.user = user.id ∧
      (POST db user od).1.products = db.products.map (fun p =>
        { p with stock := p.stock - totalQty od.orderItems p.id,
                 sold := p.sold + totalQty od.orderItems p.id }) := by
  rw [POST_valid db user od pi hact hne hpi htp hacct,
    processOrder_ok db user od _ _ hok]
  refine ⟨_, rfl, rfl, ?_⟩
  show (runItems db.products od.orderItems).products = _
  have hok' : ((mkProductOrders od.orderItems).foldl processItem
      { products := db.products, unavailable := [], processed := [],
        orderItems := od.orderItems }).unavailable = [] := hok
  have h2 := (foldl_success (mkProductOrders od.orderItems)
    { products := db.products, unavailable := [], processed := [],
      orderItems := od.orderItems } hok').2
  show ((mkProductOrders od.orderItems).foldl processItem
    { products := db.products, unavailable := [], processed := [],
      orderItems := od.orderItems }).products = _
  rw [h2]
  rw [foldl_applyInc_eq_map (mkProductOrders od.orderItems) db.products hnd]
  simp only [totalQtyPO_mkProductOrders]

unseal Rat.sub Rat.add Rat.mul Rat.inv Rat.ofScientific in
/-- Witness for C2: the valid two-line request creates one order for the
actor and decrements both products' stock by the requested quantities. -/
theorem C2_success_creates_order_updates_stock_witness :
    (exDB.products.map Product.id).Nodup ∧
    (runItems exDB.products exOkOD.orderItems).unavailable = [] ∧
    ∃ o : OrderDoc,
      (POST exDB exUser exOkOD).1.orders = exDB.orders ++ [o] ∧
      o.user = exUser.id ∧
      (POST exDB exUser exOkOD).1.products = exDB.products.map (fun p =>
        { p with stock := p.stock - totalQty exOkOD.orderItems p.id,
                 sold := p.sold + totalQty exOkOD.orderItems p.id }) :=
  ⟨by decide, by decide,
   C2_success_creates_order_updates_stock exDB exUser exOkOD exCashPI rfl
     (by decide) rfl rfl (Or.inl rfl) (by decide) (by decide)⟩

unseal Rat.sub Rat.add Rat.mul Rat.inv Rat.ofScientific in
/-- Counterexample to C3 as stated: a line item whose claimed price (200)
differs from the stored price (50) by far more than 0.01 but which also
lacks stock (3 < 5) is recorded with reason `insufficient_stock`, not
`price_mismatch`, and without the expected/provided prices. -/
theorem C3_counterexample :
    (0.01 : ℚ) < |exProduct2.price - (200 : ℚ)| ∧
    exDB.products.find? (fun q => q.id == 2) = some exProduct2 ∧
    POST exDB exUser exC3BadOD =
      (exDB, .stockError
        [{ id := 2, name := "Souris", reason := .insufficient_stock,
           stock := some 3, requested := some 5 }]) := by
  refine ⟨by decide, by decide, by decide⟩

/-- C3 (amended): a line item whose product exists and whose claimed price
differs from the stored price by more than 0.01 always blocks the whole
order — the store is unchanged and the result is the itemized
`STOCK_ERROR` — even if every other item is valid; and when that item is
first in the request, is active and has sufficient stock, its entry is the
`price_mismatch` record with the expected (store) and provided (claimed)
prices. -/
theorem C3_price_mismatch_blocks (db : DB) (user : User) (od : OrderData)
    (pi : PaymentInfo) (it : OrderItem) (p : Product)
    (hact : user.isActive = true)
    (hne : od.orderItems.isEmpty = false)
    (hpi : od.paymentInfo = some pi)
    (htp : strFalsy pi.typePayment = false)
    (hacct : isCashOf pi = true ∨
      (strFalsy pi.paymentAccountNumber = false ∧
       strFalsy pi.paymentAccountName = false))
    (hmem : it ∈ od.orderItems)
    (hfind : db.products.find? (fun q => q.id == it.product) = some p)
    (hdiff : (0.01 : ℚ) < |p.price - it.price|) :
    POST db user od =
      (db, .stockError (runItems db.products od.orderItems).unavailable) ∧
    (runItems db.products od.orderItems).unavailable ≠ [] ∧
    (∀ rest, od.orderItems = it :: rest → p.isActive = true →
      ¬(p.stock < it.quantity) →
      ∃ l, (runItems db.products od.orderItems).unavailable =
        { id := p.id, name := p.name, reason := .price_mismatch,
          expected := some p.price, provided := some it.price } :: l) := by
  have hfail : (runItems db.products od.orderItems).unavailable ≠ [] := by
    intro h
    have hok' : ((mkProductOrders od.orderItems).foldl processItem
        { products := db.products, unavailable := [], processed := [],
          orderItems := od.orderItems }).unavailable = [] := h
    obtain ⟨p', hf', _, hpr'⟩ := foldl_success_each_item
      (mkProductOrders od.orderItems) _ hok'
      ⟨it.product, it.quantity, it.cartId, it.price⟩
      (List.mem_map_of_mem _ hmem)
    have hp' : p' = p := by
      have h2 : some p' = some p := by rw [← hf', ← hfind]
      exact Option.some.inj h2
    rw [hp'] at hpr'
    exact hpr' hdiff
  refine ⟨?_, hfail, ?_⟩
  · rw [POST_valid db user od pi hact hne hpi htp hacct,
      processOrder_fail db user od _ _ hfail]
  · intro rest heq hactv hstock
    have hpo : mkProductOrders od.orderItems =
        (⟨it.product, it.quantity, it.cartId, it.price⟩ : ProductOrder) ::
          mkProductOrders rest := by
      rw [heq]; rfl
    have hchk : checkItem p ⟨it.product, it.quantity, it.cartId, it.price⟩ =
        some { id := p.id, name := p.name, reason := .price_mismatch,
               expected := some p.price, provided := some it.price } := by
      unfold checkItem
      rw [if_neg (by simp [hactv]), if_neg hstock, if_pos hdiff]
    have hstep := processItem_check_fail
      { products := db.products, unavailable := [], processed := [],
        orderItems := od.orderItems }
      ⟨it.product, it.quantity, it.cartId, it.price⟩ p _ hfind hchk
    obtain ⟨l, hl⟩ := foldl_unavailable_append (mkProductOrders rest)
      (processItem
        { products := db.products, unavailable := [], processed := [],
          orderItems := od.orderItems }
        ⟨it.product, it.quantity, it.cartId, it.price⟩)
    refine ⟨l, ?_⟩
    show ((mkProductOrders od.orderItems).foldl processItem
      { products := db.products, unavailable := [], processed := [],
        orderItems := od.orderItems }).unavailable = _
    rw [hpo, List.foldl_cons, hl, hstep]
    rfl

unseal Rat.sub Rat.add Rat.mul Rat.inv Rat.ofScientific in
/-- Witness for the amended C3: a first line with a 200-for-100 price claim
on an active, stocked product blocks the order with a leading
`price_mismatch` entry although the second line is valid. -/
theorem C3_price_mismatch_blocks_witness :
    ((0.01 : ℚ) < |exProduct.price - (200 : ℚ)|) ∧
    POST exDB exUser exC3MixOD =
      (exDB, .stockError (runItems exDB.products exC3MixOD.orderItems).unavailable) ∧
    (runItems exDB.products exC3MixOD.orderItems).unavailable ≠ [] ∧
    (∀ rest, exC3MixOD.orderItems =
        ({ product := 1, quantity := 1, cartId := none, price := 200 } : OrderItem) :: rest →
      exProduct.isActive = true → ¬(exProduct.stock < (1 : Int)) →
      ∃ l, (runItems exDB.products exC3MixOD.orderItems).unavailable =
        { id := exProduct.id, name := exProduct.name, reason := .price_mismatch,
          expected := some exProduct.price, provided := some (200 : ℚ) } :: l) :=
  ⟨by decide,
   C3_price_mismatch_blocks exDB exUser exC3MixOD exCashPI
     { product := 1, quantity := 1, cartId := none, price := 200 } exProduct
     rfl (by decide) rfl rfl (Or.inl rfl) (by decide) (by decide) (by decide)⟩

unseal Rat.sub Rat.add Rat.mul Rat.inv Rat.ofScientific in
/-- C4 fails on the code: the handler persists `orderData` itself, so the
created order's line price is the client-claimed 100.01 — not the store's
100 — and `totalAmount` is the client's 999999, unvalidated.  (The
`processedItems` list built from store prices is computed and discarded.) -/
theorem C4_client_price_persisted :
    exDB.products.map Product.price = [100, 50, 20] ∧
    ((POST exDB exUser exC4OD).1.orders.map
        (fun o => (o.items.map OrderItem.price, o.totalAmount))) =
      [([100.01], 999999)] ∧
    ¬((100.01 : ℚ) = 100) ∧
    ((runItems exDB.products exC4OD.orderItems).processed.map
        ProcessedItem.price) = [100] := by
  refine ⟨by decide, by decide, by decide, by decide⟩

/-- C5: for a CASH order, whatever account fields the client supplied, the
persisted `paymentInfo` carries account number "CASH", account name
"Paiement en espèces" and `isCashPayment = true`. -/
theorem C5_cash_payment_normalized (db : DB) (user : User) (od : OrderData)
    (pi : PaymentInfo)
    (hact : user.isActive = true)
    (hne : od.orderItems.isEmpty = false)
    (hpi : od.paymentInfo = some pi)
    (htp : pi.typePayment = some "CASH")
    (hok : (runItems db.products od.orderItems).unavailable = []) :
    ∃ o : OrderDoc, (POST db user od).1.orders = db.orders ++ [o] ∧
      o.paymentInfo.paymentAccountNumber = some "CASH" ∧
      o.paymentInfo.paymentAccountName = some "Paiement en espèces" ∧
      o.paymentInfo.isCashPayment = true := by
  have hcash : isCashOf pi = true := by simp [isCashOf, htp]
  have htp' : strFalsy pi.typePayment = false := by rw [htp]; rfl
  rw [POST_valid db user od pi hact hne hpi htp' (Or.inl hcash),
    processOrder_ok db user od _ _ hok]
  refine ⟨_, rfl, ?_, ?_, ?_⟩ <;> simp [newOrderDoc, normalizePayment, hcash]

unseal Rat.sub Rat.add Rat.mul Rat.inv Rat.ofScientific in
/-- Witness for C5: the valid CASH request persists the sentinel payment
info even though the client supplied no account fields. -/
theorem C5_cash_payment_normalized_witness :
    exCashPI.typePayment = some "CASH" ∧
    (runItems exDB.products exOkOD.orderItems).unavailable = [] ∧
    ∃ o : OrderDoc, (POST exDB exUser exOkOD).1.orders = exDB.orders ++ [o] ∧
      o.paymentInfo.paymentAccountNumber = some "CASH" ∧
      o.paymentInfo.paymentAccountName = some "Paiement en espèces" ∧
      o.paymentInfo.isCashPayment = true :=
  ⟨rfl, by decide,
   C5_cash_payment_normalized exDB exUser exOkOD exCashPI rfl (by decide) rfl
     rfl (by decide)⟩

/-- C6: on a successful order, a stored cart entry survives exactly when it
is not both referenced by the request's cart ids and owned by the actor;
in particular every other user's cart entry survives, even when a
malicious request names its id. -/
theorem C6_cart_cleanup_owner_scoped (db : DB) (user : User) (od : OrderData)
    (pi : PaymentInfo)
    (hact : user.isActive = true)
    (hne : od.orderItems.isEmpty = false)
    (hpi : od.paymentInfo = some pi)
    (htp : strFalsy pi.typePayment = false)
    (hacct : isCashOf pi = true ∨
      (strFalsy pi.paymentAccountNumber = false ∧
       strFalsy pi.paymentAccountName = false))
    (hok : (runItems db.products od.orderItems).unavailable = []) :
    ∀ c ∈ db.carts,
      (c ∈ (POST db user od).1.carts ↔
        ¬(c.id ∈ reqCartIds od.orderItems ∧ c.user = user.id)) ∧
      (c.user ≠ user.id → c ∈ (POST db user od).1.carts) := by
  rw [POST_valid db user od pi hact hne hpi htp hacct,
    processOrder_ok db user od _ _ hok]
  intro c hc
  have hmain : c ∈ (commitOrder db user od (normalizePayment pi) (isCashOf pi)
      (runItems db.products od.orderItems)).1.carts ↔
      ¬(c.id ∈ reqCartIds od.orderItems ∧ c.user = user.id) := by
    show c ∈ deleteCarts db.carts (reqCartIds od.orderItems) user.id ↔ _
    unfold deleteCarts
    by_cases he : (reqCartIds od.orderItems).isEmpty = true
    · rw [if_pos he]
      have h0 : reqCartIds od.orderItems = [] := by simpa using he
      simp [h0, hc]
    · rw [if_neg he]
      simp only [List.mem_filter]
      constructor
      · rintro ⟨-, hb⟩ ⟨h1, h2⟩
        simp [List.contains, h1, h2] at hb
      · intro hn
        refine ⟨hc, ?_⟩
        by_cases h1 : c.id ∈ reqCartIds od.orderItems
        · by_cases h2 : c.user = user.id
          · exact absurd ⟨h1, h2⟩ hn
          · simp [h2]
        · simp [List.contains, h1]
  exact ⟨hmain, fun hneq => hmain.mpr (fun hand => hneq hand.2)⟩

unseal Rat.sub Rat.add Rat.mul Rat.inv Rat.ofScientific in
/-- Witness for C6: the successful order deletes the actor's referenced
cart entry (id 42) and leaves the other user's entry (id 43) alone. -/
theorem C6_cart_cleanup_owner_scoped_witness :
    (⟨42, 7, 1, 2⟩ : CartEntry) ∈ exDB.carts ∧
    (⟨43, 9, 1, 1⟩ : CartEntry) ∈ exDB.carts ∧
    (¬((⟨42, 7, 1, 2⟩ : CartEntry) ∈ (POST exDB exUser exOkOD).1.carts)) ∧
    (⟨43, 9, 1, 1⟩ : CartEntry) ∈ (POST exDB exUser exOkOD).1.carts := by
  refine ⟨by decide, by decide, ?_, ?_⟩
  · intro hmem
    have h := ((C6_cart_cleanup_owner_scoped exDB exUser exOkOD exCashPI rfl
      (by decide) rfl rfl (Or.inl rfl) (by decide)) ⟨42, 7, 1, 2⟩
      (by decide)).1.mp hmem
    exact h (by decide)
  · exact ((C6_cart_cleanup_owner_scoped exDB exUser exOkOD exCashPI rfl
      (by decide) rfl rfl (Or.inl rfl) (by decide)) ⟨43, 9, 1, 1⟩
      (by decide)).2 (by decide)

/-- C7: the confirmation returned on success carries the `orderNumber` and
`paymentStatus` of the very order this transaction appended — given the
store invariant that every existing order was created before now. -/
theorem C7_confirmation_is_created_order (db : DB) (user : User)
    (od : OrderData) (pi : PaymentInfo)
    (hact : user.isActive = true)
    (hne : od.orderItems.isEmpty = false)
    (hpi : od.paymentInfo = some pi)
    (htp : strFalsy pi.typePayment = false)
    (hacct : isCashOf pi = true ∨
      (strFalsy pi.paymentAccountNumber = false ∧
       strFalsy pi.paymentAccountName = false))
    (hok : (runItems db.products od.orderItems).unavailable = [])
    (htime : ∀ o ∈ db.orders, o.createdAt < db.time) :
    ∃ o : OrderDoc, (POST db user od).1.orders = db.orders ++ [o] ∧
      (POST db user od).2 =
        .success o.orderNumber o.paymentStatus (isCashOf pi) := by
  rw [POST_valid db user od pi hact hne hpi htp hacct,
    processOrder_ok db user od _ _ hok]
  refine ⟨newOrderDoc db user od (normalizePayment pi) (isCashOf pi)
    (runItems db.products od.orderItems), rfl, ?_⟩
  show OrderResult.success
    ((findLatestOrder (db.orders ++ [newOrderDoc db user od (normalizePayment pi)
        (isCashOf pi) (runItems db.products od.orderItems)]) user.id).getD
      (newOrderDoc db user od (normalizePayment pi) (isCashOf pi)
        (runItems db.products od.orderItems))).orderNumber
    ((findLatestOrder (db.orders ++ [newOrderDoc db user od (normalizePayment pi)
        (isCashOf pi) (runItems db.products od.orderItems)]) user.id).getD
      (newOrderDoc db user od (normalizePayment pi) (isCashOf pi)
        (runItems db.products od.orderItems))).paymentStatus (isCashOf pi) = _
  rw [findLatestOrder_append db.orders _ user.id rfl
    (fun b hb => htime b hb)]
  rfl

unseal Rat.sub Rat.add Rat.mul Rat.inv Rat.ofScientific in
/-- Witness for C7: the confirmation for the valid request reports the
created order's number and status. -/
theorem C7_confirmation_is_created_order_witness :
    (∀ o ∈ exDB.orders, o.createdAt < exDB.time) ∧
    ∃ o : OrderDoc, (POST exDB exUser exOkOD).1.orders = exDB.orders ++ [o] ∧
      (POST exDB exUser exOkOD).2 =
        .success o.orderNumber o.paymentStatus (isCashOf exCashPI) :=
  ⟨by decide,
   C7_confirmation_is_created_order exDB exUser exOkOD exCashPI rfl (by decide)
     rfl rfl (Or.inl rfl) (by decide) (by decide)⟩

/-- C8: the per-item checks run in the fixed order `not_found`,
`product_inactive`, `insufficient_stock`, `price_mismatch`; a failing item
is recorded with exactly one entry carrying the first reason that fails
(later conditions are not consulted), an `insufficient_stock` entry carries
the current stock and the requested quantity, and a failing iteration
touches nothing else in the loop state. -/
theorem C8_checks_fixed_order (st : LoopState) (it : ProductOrder) :
    (st.products.find? (fun q => q.id == it.productId) = none →
      processItem st it = { st with unavailable := st.unavailable ++
        [{ id := it.productId, name := "Product not found",
           reason := .not_found }] }) ∧
    (∀ p, st.products.find? (fun q => q.id == it.productId) = some p →
      (p.isActive = false →
        processItem st it = { st with unavailable := st.unavailable ++
          [{ id := p.id, name := p.name, reason := .product_inactive }] }) ∧
      (p.isActive = true → p.stock < it.quantity →
        processItem st it = { st with unavailable := st.unavailable ++
          [{ id := p.id, name := p.name, reason := .insufficient_stock,
             stock := some p.stock, requested := some it.quantity }] }) ∧
      (p.isActive = true → ¬(p.stock < it.quantity) →
        (0.01 : ℚ) < |p.price - it.price| →
        processItem st it = { st with unavailable := st.unavailable ++
          [{ id := p.id, name := p.name, reason := .price_mismatch,
             expected := some p.price, provided := some it.price }] })) := by
  refine ⟨fun hf => processItem_not_found st it hf,
    fun p hf => ⟨?_, ?_, ?_⟩⟩
  · intro ha
    refine processItem_check_fail st it p _ hf ?_
    unfold checkItem
    rw [if_pos ha]
  · intro ha hs
    refine processItem_check_fail st it p _ hf ?_
    unfold checkItem
    rw [if_neg (by simp [ha]), if_pos hs]
  · intro ha hs hp
    refine processItem_check_fail st it p _ hf ?_
    unfold checkItem
    rw [if_neg (by simp [ha]), if_neg hs, if_pos hp]

unseal Rat.sub Rat.add Rat.mul Rat.inv Rat.ofScientific in
/-- Witness for C8, the spec's own example: stock 3, requested 5 yields the
single entry `{reason: insufficient_stock, stock: 3, requested: 5}`. -/
theorem C8_checks_fixed_order_witness :
    exStockLoop.products.find?
      (fun q => q.id == exStockItem.productId) = some exProduct2 ∧
    exProduct2.isActive = true ∧ exProduct2.stock < exStockItem.quantity ∧
    processItem exStockLoop exStockItem =
      { exStockLoop with unavailable :=
          [{ id := 2, name := "Souris", reason := .insufficient_stock,
             stock := some 3, requested := some 5 }] } := by
  refine ⟨by decide, rfl, by decide, ?_⟩
  have h := ((C8_checks_fixed_order exStockLoop exStockItem).2 exProduct2
    (by decide)).2.1 rfl (by decide)
  rw [h]
  decide

/-- C9: a malformed request — empty items, missing payment info, missing
payment type, or a non-cash payment missing the account number or name —
is rejected with a 400 validation error and the store is returned
untouched (no transaction is started). -/
theorem C9_validation_rejected_before_store (db : DB) (user : User)
    (od : OrderData)
    (hact : user.isActive = true)
    (hbad : od.orderItems.isEmpty = true ∨ od.paymentInfo = none ∨
      (∃ pi, od.paymentInfo = some pi ∧
        (strFalsy pi.typePayment = true ∨
         (isCashOf pi = false ∧
          (strFalsy pi.paymentAccountNumber = true ∨
           strFalsy pi.paymentAccountName = true))))) :
    ∃ code, POST db user od = (db, .validationError code) := by
  by_cases he : od.orderItems.isEmpty = true
  · refine ⟨"EMPTY_ORDER", ?_⟩
    unfold POST
    rw [hact]
    simp [he]
  · rcases hbad with h1 | h2 | ⟨pi, hpi, h3⟩
    · exact absurd h1 he
    · refine ⟨"MISSING_PAYMENT_INFO", ?_⟩
      unfold POST
      rw [hact]
      simp [he, h2]
    · rcases h3 with htp | ⟨hnc, hacc⟩
      · refine ⟨"PAYMENT_TYPE_REQUIRED", ?_⟩
        unfold POST
        rw [hact]
        simp [he, hpi, htp]
      · by_cases htp : strFalsy pi.typePayment = true
        · refine ⟨"PAYMENT_TYPE_REQUIRED", ?_⟩
          unfold POST
          rw [hact]
          simp [he, hpi, htp]
        · refine ⟨"ACCOUNT_INFO_REQUIRED", ?_⟩
          unfold POST
          rw [hact]
          rcases hacc with h4 | h4 <;>
            simp [he, hpi, htp, hnc, h4]

unseal Rat.sub Rat.add Rat.mul Rat.inv Rat.ofScientific in
/-- Witness for C9: the empty request is rejected with a validation error
and the store is unchanged. -/
theorem C9_validation_rejected_before_store_witness :
    exEmptyOD.orderItems.isEmpty = true ∧
    ∃ code, POST exDB exUser exEmptyOD = (exDB, .validationError code) :=
  ⟨rfl, C9_validation_rejected_before_store exDB exUser exEmptyOD rfl
    (Or.inl rfl)⟩

/-- C10 (implicit behaviour): a request whose `paymentInfo.isCashPayment`
is `true` is treated as CASH even when `typePayment` names a non-cash
method: the account-field requirement is skipped (the theorem assumes
nothing about the account fields) and the payment fields are overwritten
with the CASH sentinels before the transaction runs. -/
theorem C10_cash_flag_alone_decides (db : DB) (user : User) (od : OrderData)
    (pi : PaymentInfo) (t : String)
    (hact : user.isActive = true)
    (hne : od.orderItems.isEmpty = false)
    (hpi : od.paymentInfo = some pi)
    (ht : pi.typePayment = some t) (ht0 : t ≠ "") (_htc : t ≠ "CASH")
    (hflag : pi.isCashPayment = true) :
    isCashOf pi = true ∧
    POST db user od = processOrder db user od
      { pi with paymentAccountNumber := some "CASH",
                paymentAccountName := some "Paiement en espèces",
                isCashPayment := true } true := by
  have hcash : isCashOf pi = true := by simp [isCashOf, hflag]
  have htp : strFalsy pi.typePayment = false := by
    rw [ht]
    show t.isEmpty = false
    by_cases h : t.isEmpty = true
    · exact absurd ((String.isEmpty_iff t).mp h) ht0
    · simpa using h
  refine ⟨hcash, ?_⟩
  have hnorm : normalizePayment pi =
      { pi with paymentAccountNumber := some "CASH",
                paymentAccountName := some "Paiement en espèces",
                isCashPayment := true } := by
    unfold normalizePayment
    rw [if_pos (by simpa using hcash)]
  rw [POST_valid db user od pi hact hne hpi htp (Or.inl hcash), hnorm, hcash]

unseal Rat.sub Rat.add Rat.mul Rat.inv Rat.ofScientific in
/-- Witness for C10: a request typed "WAVE" with `isCashPayment: true` and
no account fields passes validation, runs the transaction as CASH, and
persists the sentinel payment info. -/
theorem C10_cash_flag_alone_decides_witness :
    exWavePI.isCashPayment = true ∧ exWavePI.typePayment = some "WAVE" ∧
    exWavePI.paymentAccountNumber = none ∧ exWavePI.paymentAccountName = none ∧
    (isCashOf exWavePI = true ∧
      POST exDB exUser exWaveOD = processOrder exDB exUser exWaveOD
        { exWavePI with paymentAccountNumber := some "CASH",
                        paymentAccountName := some "Paiement en espèces",
                        isCashPayment := true } true) :=
  ⟨rfl, rfl, rfl, rfl,
   C10_cash_flag_alone_decides exDB exUser exWaveOD exWavePI "WAVE" rfl
     (by decide) rfl rfl (by decide) (by decide) rfl⟩
